import Mathlib

/-!
Verification of the feed-ranking core of the `acorn_back` backend.

The definitions below are a shallow embedding of `src/api/feed/router.ts`
(feed scoring, candidate selection, pagination) and of the reaction toggle
in `src/api/posts/router.ts`.  JavaScript `number` arithmetic is modelled
over the real numbers; timestamps (JavaScript millisecond epoch values) are
modelled as integers; `Number(x.toFixed(4))` is modelled as rounding to the
nearest multiple of 1/10000 (ties away from zero for nonnegative inputs,
matching ECMAScript `toFixed` on the nonnegative scores that occur here).
-/

namespace Acorn

/-- Model of `Number(x.toFixed(4))`: round to 4 decimal places
(nearest multiple of 1/10000, ties upward). -/
noncomputable def round4 (x : ℝ) : ℝ :=
  ((⌊x * 10000 + 1 / 2⌋ : ℤ) : ℝ) / 10000

/-- Reaction types, from the Prisma `ReactionType` enum used by
`reactToPostSchema` and `FEED_PARAMS.REACTION_SCORES`. -/
inductive RType : Type
  | LIKE
  | BOOST
  | BOOKMARK
deriving DecidableEq, Repr

/-- Per-type reaction counts, as accumulated by the
`post.reactions.reduce(..., { LIKE: 0, BOOST: 0, BOOKMARK: 0 })` calls in
`src/api/feed/router.ts`. -/
structure ReactionCounts : Type where
  LIKE : ℕ
  BOOST : ℕ
  BOOKMARK : ℕ
deriving DecidableEq, Repr

/-- The `{ ticker, raw, kind }` symbol objects passed to
`calculateForYouScore` in `src/api/feed/router.ts`. -/
structure SymbolRef : Type where
  ticker : String
  raw : String
  kind : String
deriving DecidableEq, Repr

/-- `FEED_PARAMS.INITIAL_REACTION_WEIGHT` (α = 0.4). -/
def INITIAL_REACTION_WEIGHT : ℝ := 0.4

/-- `FEED_PARAMS.TIME_DECAY_WEIGHT` (β = 0.3). -/
def TIME_DECAY_WEIGHT : ℝ := 0.3

/-- `FEED_PARAMS.SYMBOL_MATCH_WEIGHT` (γ = 0.3). -/
def SYMBOL_MATCH_WEIGHT : ℝ := 0.3

/-- `FEED_PARAMS.RECENT_REACTION_WINDOW` (2 hours in milliseconds). -/
def RECENT_REACTION_WINDOW : ℤ := 2 * 60 * 60 * 1000

/-- `FEED_PARAMS.MAX_POST_AGE` (24 hours in milliseconds). -/
def MAX_POST_AGE : ℤ := 24 * 60 * 60 * 1000

/-- `calculateTimeDecay` from `src/api/feed/router.ts` (lines 53-57):
`ageInHours = (Date.now() - createdAt.getTime()) / (60 * 60 * 1000)`,
result `Math.exp(-ageInHours / 6)`.  `Date.now()` is passed explicitly
as `now`. -/
noncomputable def calculateTimeDecay (now createdAt : ℤ) : ℝ :=
  Real.exp (-((((now - createdAt : ℤ) : ℝ)) / (60 * 60 * 1000)) / 6)

/-- `calculateSymbolMatchBonus` from `src/api/feed/router.ts` (lines 62-74):
returns 0 for an empty interest list, otherwise
`Math.min(matches / Math.max(userInterestSymbols.length, 1), 1)` where
`matches` counts post symbols contained in the interest list. -/
noncomputable def calculateSymbolMatchBonus
    (postSymbols userInterestSymbols : List String) : ℝ :=
  if userInterestSymbols.length = 0 then 0
  else
    min
      (((postSymbols.filter (fun s => userInterestSymbols.contains s)).length : ℝ) /
        ((max userInterestSymbols.length 1 : ℕ) : ℝ))
      1

/-- `calculateInitialReactionScore` from `src/api/feed/router.ts`
(lines 510-532): `baseScore = LIKE*1 + BOOST*3 + BOOKMARK*2`, a 1.5×
`earlyBoost` when `Date.now() - createdAt.getTime()` is at most
`RECENT_REACTION_WINDOW`, and `Number((Math.log(baseScore + 1) * earlyBoost).toFixed(4))`. -/
noncomputable def calculateInitialReactionScore
    (now createdAt : ℤ) (reactionCounts : ReactionCounts) : ℝ :=
  round4 (Real.log
      (((reactionCounts.LIKE * 1 + reactionCounts.BOOST * 3 +
          reactionCounts.BOOKMARK * 2 : ℕ) : ℝ) + 1) *
    (if now - createdAt ≤ RECENT_REACTION_WINDOW then 1.5 else 1.0))

/-- `calculateForYouScore` from `src/api/feed/router.ts` (lines 477-505):
the weighted combination of the three sub-scores, rounded to 4 decimal
places via `Number(finalScore.toFixed(4))`. -/
noncomputable def calculateForYouScore
    (now createdAt : ℤ) (reactionCounts : ReactionCounts)
    (symbols : List SymbolRef) (userInterestSymbols : List String) : ℝ :=
  round4
    (INITIAL_REACTION_WEIGHT * calculateInitialReactionScore now createdAt reactionCounts +
      TIME_DECAY_WEIGHT * calculateTimeDecay now createdAt +
      SYMBOL_MATCH_WEIGHT *
        calculateSymbolMatchBonus (symbols.map SymbolRef.ticker) userInterestSymbols)

/-- Stable insertion step for descending sort by a key: `x` is placed before
the first element whose key is strictly smaller, i.e. after every element
with a greater-or-equal key.  This realises the observable contract of
JavaScript `Array.prototype.sort` with comparator `(a, b) => key(b) - key(a)`
(stable, descending). -/
def insertDescBy {α β : Type} [LinearOrder β] (f : α → β) (x : α) :
    List α → List α
  | [] => [x]
  | y :: ys => if f y < f x then x :: y :: ys else y :: insertDescBy f x ys

/-- Stable descending sort by a key (insertion sort, processing elements in
original order so equal keys keep their relative order). -/
def sortDescBy {α β : Type} [LinearOrder β] (f : α → β) (l : List α) : List α :=
  l.foldl (fun acc x => insertDescBy f x acc) []

/-- A `{ type, userId }` reaction row as selected by the feed queries
(`reactions: { select: { type: true, userId: true } }`). -/
structure PostReaction : Type where
  type : RType
  userId : ℕ
deriving DecidableEq, Repr

/-- A post row with the fields the feed pipeline reads.  `createdAt` is a
millisecond epoch timestamp; `replyTo` is the reply-parent column of the
`Post` model (`null` for top-level posts); `symbols` holds the tickers of
the attached symbol rows. -/
structure Post : Type where
  id : ℕ
  userId : ℕ
  createdAt : ℤ
  isHidden : Bool
  replyTo : Option ℕ
  reactions : List PostReaction
  symbols : List String
deriving DecidableEq, Repr

/-- The `post.reactions.reduce` accumulation in `getForYouFeed`
(`src/api/feed/router.ts` lines 321-330): start from
`{ LIKE: 0, BOOST: 0, BOOKMARK: 0 }` and increment the counter of each
reaction's type. -/
def countReactions (rs : List PostReaction) : ReactionCounts :=
  rs.foldl
    (fun acc r =>
      match r.type with
      | RType.LIKE => { acc with LIKE := acc.LIKE + 1 }
      | RType.BOOST => { acc with BOOST := acc.BOOST + 1 }
      | RType.BOOKMARK => { acc with BOOKMARK := acc.BOOKMARK + 1 })
    ⟨0, 0, 0⟩

/-- The `where` clause of the `for_you` candidate query
(`src/api/feed/router.ts` lines 253-281): `createdAt >= now - MAX_POST_AGE`,
`isHidden: false`, and — when a cursor timestamp was parsed —
`createdAt < timestamp`.  No condition on `replyTo` is present. -/
def forYouEligible (db : List Post) (now : ℤ) (cursorTs : Option ℤ) :
    List Post :=
  db.filter fun p =>
    decide (now - MAX_POST_AGE ≤ p.createdAt) && !p.isHidden &&
      (match cursorTs with
        | some ts => decide (p.createdAt < ts)
        | none => true)

/-- The `for_you` candidate fetch (`prisma.post.findMany` in `getForYouFeed`):
eligible rows ordered by `createdAt` descending, truncated to
`Math.min(limit * 3, 100)`. -/
def forYouCandidates (db : List Post) (now : ℤ) (cursorTs : Option ℤ)
    (limit : ℕ) : List Post :=
  (sortDescBy Post.createdAt (forYouEligible db now cursorTs)).take
    (min (limit * 3) 100)

/-- The algorithmic cursor produced by `getForYouFeed`: the payload of the
string `` `${score}_${createdAt.getTime()}` `` — the score and the
millisecond timestamp of the last selected post. -/
abbrev ForYouCursor : Type := ℝ × ℤ

/-- `getForYouFeed` from `src/api/feed/router.ts` (lines 244-403), after the
cursor string has been parsed to an optional timestamp: fetch candidates,
score each with `calculateForYouScore`, sort by score descending (stable),
truncate to `limit`, and derive the next cursor from the last selected post
when the selection is exactly `limit` posts (and nonempty). -/
noncomputable def getForYouFeedCore (db : List Post) (now : ℤ)
    (userInterestSymbols : List String) (cursorTs : Option ℤ) (limit : ℕ) :
    List (Post × ℝ) × Option ForYouCursor :=
  let candidates := forYouCandidates db now cursorTs limit
  let scoredPosts := candidates.map fun p =>
    (p,
      calculateForYouScore now p.createdAt (countReactions p.reactions)
        (p.symbols.map fun t => ⟨t, t, ""⟩) userInterestSymbols)
  let sorted := sortDescBy Prod.snd scoredPosts
  let selectedPosts := sorted.take limit
  let nextCursor : Option ForYouCursor :=
    match selectedPosts.getLast? with
    | some lastPost =>
        if selectedPosts.length = limit then
          some (lastPost.2, lastPost.1.createdAt)
        else none
    | none => none
  (selectedPosts, nextCursor)

/-- Model of JavaScript `String.prototype.split` with a one-character
separator, on strings as character lists: `"" ↦ [""]`, and every occurrence
of the separator ends a (possibly empty) field. -/
def jsSplit (sep : Char) : List Char → List (List Char)
  | [] => [[]]
  | c :: cs =>
      if c = sep then [] :: jsSplit sep cs
      else
        match jsSplit sep cs with
        | [] => [[c]]
        | h :: t => (c :: h) :: t

/-- The whitespace characters JavaScript `parseInt` skips before parsing
(ASCII whitespace, vertical tab, form feed and NBSP). -/
def jsWhitespace (c : Char) : Bool :=
  c = ' ' || c = '\t' || c = '\n' || c = '\r' || c.toNat = 11 ||
    c.toNat = 12 || c.toNat = 160

/-- Model of JavaScript `parseInt` with no radix argument, on a character
list: leading whitespace is skipped, an optional sign follows, a `0x`/`0X`
prefix switches to hexadecimal, and the longest prefix of digits of the
radix is parsed; `none` models `NaN` (no digits found). -/
def parseIntJS (cs : List Char) : Option ℤ :=
  let decVal : List Char → Option ℕ := fun ds =>
    match ds.takeWhile Char.isDigit with
    | [] => none
    | ds' => some (ds'.foldl (fun n c => n * 10 + (c.toNat - 48)) 0)
  let hexVal : List Char → Option ℕ := fun ds =>
    match ds.takeWhile (fun c =>
        c.isDigit || ('a' ≤ c && c ≤ 'f') || ('A' ≤ c && c ≤ 'F')) with
    | [] => none
    | ds' => some (ds'.foldl (fun n c =>
        n * 16 +
          (if c.isDigit then c.toNat - 48
            else if 'a' ≤ c then c.toNat - 87 else c.toNat - 55)) 0)
  let magnitude : List Char → Option ℕ := fun ds =>
    match ds with
    | '0' :: c :: rest =>
        if c = 'x' || c = 'X' then hexVal rest else decVal ds
    | _ => decVal ds
  match cs.dropWhile jsWhitespace with
  | '-' :: rest => (magnitude rest).map (fun n => -(n : ℤ))
  | '+' :: rest => (magnitude rest).map (fun n => (n : ℤ))
  | rest => (magnitude rest).map (fun n => (n : ℤ))

/-- The timestamp extracted by the cursor handling of `getForYouFeed`
(`src/api/feed/router.ts` lines 263-281): `cursor.split('_')` is
destructured into `[scoreStr, timestampStr]`; only when both are truthy
(nonempty) is `parseInt(timestampStr)` used — and only that timestamp
reaches the query's `createdAt < new Date(timestamp)` condition.  The
score component is never used.  This projection conflates the guard-failure
case (cursor ignored) with the `parseInt`-returns-`NaN` case into `none`;
the full behaviour, where the `NaN` case sends an Invalid Date to the
query and errors, is `forYouCursorConstraint` / `getForYouFeedReq`
below. -/
def forYouCursorTimestamp (cursor : List Char) : Option ℤ :=
  match jsSplit '_' cursor with
  | scoreStr :: timestampStr :: _ =>
      if scoreStr ≠ [] ∧ timestampStr ≠ [] then parseIntJS timestampStr
      else none
  | _ => none

/-- An error thrown by the database client: `prisma.post.findMany` rejects
when a `createdAt` filter holds an Invalid Date (`new Date(NaN)` /
`new Date(undefined)`); the route's `asyncHandler` then surfaces it instead
of serving a page. -/
inductive DbError : Type
  | invalidDate
deriving DecidableEq, Repr

/-- The `createdAt` constraint the `for_you` query is actually built with
(`src/api/feed/router.ts` lines 263-281): no filter when there is no cursor
or the split/truthiness guard fails; `createdAt < timestamp` when
`parseInt(timestampStr)` yields a number; and an Invalid-Date filter —
which makes the query throw — when it yields `NaN`, because the code
assigns `whereClause.OR = [{ createdAt: { lt: new Date(timestamp) } }]`
unconditionally inside the guard. -/
inductive CursorConstraint : Type
  | noFilter
  | ltTimestamp (ts : ℤ)
  | invalidDate
deriving DecidableEq, Repr

/-- The constraint derived from a `for_you` cursor string. -/
def forYouCursorConstraint (cursor : List Char) : CursorConstraint :=
  match jsSplit '_' cursor with
  | scoreStr :: timestampStr :: _ =>
      if scoreStr ≠ [] ∧ timestampStr ≠ [] then
        match parseIntJS timestampStr with
        | some ts => CursorConstraint.ltTimestamp ts
        | none => CursorConstraint.invalidDate
      else CursorConstraint.noFilter
  | _ => CursorConstraint.noFilter

/-- `getForYouFeed` taking the raw cursor string (as a character list), as
received from the request — the non-error projection (cursors whose
timestamp component parses to `NaN` are treated here as filterless; the
error they actually raise is captured by `getForYouFeedReq`). -/
noncomputable def getForYouFeedStr (db : List Post) (now : ℤ)
    (userInterestSymbols : List String) (cursor : Option (List Char))
    (limit : ℕ) : List (Post × ℝ) × Option ForYouCursor :=
  getForYouFeedCore db now userInterestSymbols
    (cursor.bind forYouCursorTimestamp) limit

/-- The full `for_you` request outcome, including the database error path:
a cursor whose timestamp component passes the truthiness guard but parses
to `NaN` puts an Invalid Date into the query, and `prisma.post.findMany`
throws (outside the `try/catch`, which only wraps the parsing), surfacing
the error to the caller. -/
noncomputable def getForYouFeedReq (db : List Post) (now : ℤ)
    (userInterestSymbols : List String) (cursor : Option (List Char))
    (limit : ℕ) :
    Except DbError (List (Post × ℝ) × Option ForYouCursor) :=
  match cursor with
  | none => Except.ok (getForYouFeedCore db now userInterestSymbols none limit)
  | some c =>
      match forYouCursorConstraint c with
      | CursorConstraint.noFilter =>
          Except.ok (getForYouFeedCore db now userInterestSymbols none limit)
      | CursorConstraint.ltTimestamp ts =>
          Except.ok
            (getForYouFeedCore db now userInterestSymbols (some ts) limit)
      | CursorConstraint.invalidDate => Except.error DbError.invalidDate

/-- The `where` clause of the `following` candidate query
(`src/api/feed/router.ts` lines 116-143): author followed by the caller,
`isHidden: false`, and — when the cursor decoded — `createdAt` strictly
below the decoded timestamp. -/
def followingEligible (db : List Post) (followedIds : List ℕ)
    (cursorTs : Option ℤ) : List Post :=
  db.filter fun p =>
    followedIds.contains p.userId && !p.isHidden &&
      (match cursorTs with
        | some ts => decide (p.createdAt < ts)
        | none => true)

/-- The `following` candidate fetch: eligible rows ordered by `createdAt`
descending, truncated to `limit + 1` (overfetch by one). -/
def followingFetch (db : List Post) (followedIds : List ℕ)
    (cursorTs : Option ℤ) (limit : ℕ) : List Post :=
  (sortDescBy Post.createdAt (followingEligible db followedIds cursorTs)).take
    (limit + 1)

/-- `getFollowingFeed` from `src/api/feed/router.ts` (lines 116-239), after
the cursor has been decoded to an optional timestamp: fetch `limit + 1`
posts, set `hasMore` iff strictly more than `limit` came back, drop the
overfetched row, and derive the next cursor (the `createdAt` of the last
returned post, the payload of the base64/JSON cursor string) when `hasMore`
and the page is nonempty. -/
def getFollowingFeedCore (db : List Post) (followedIds : List ℕ)
    (cursorTs : Option ℤ) (limit : ℕ) : List Post × Option ℤ :=
  let posts := followingFetch db followedIds cursorTs limit
  let hasMore := decide (limit < posts.length)
  let resultPosts := if hasMore then posts.dropLast else posts
  let nextCursor : Option ℤ :=
    if hasMore then resultPosts.getLast?.map Post.createdAt else none
  (resultPosts, nextCursor)

/-- `getFollowingFeed` taking the raw cursor string.  The base64/JSON
decoding (`JSON.parse(Buffer.from(cursor, 'base64').toString())` inside
`try { ... } catch { /* Invalid cursor, ignore */ }`) is abstracted as a
`decode` function returning `none` when the platform decode throws, in
which case the cursor is ignored.  This wrapper covers only the non-error
paths; a cursor that JSON-parses without a valid `createdAt` reaches the
query as an Invalid Date and errors — that case is `getFollowingFeedReq`
with `FollowingCursorDecode.invalidDate`. -/
def getFollowingFeed (db : List Post) (followedIds : List ℕ)
    (decode : List Char → Option ℤ) (cursor : Option (List Char))
    (limit : ℕ) : List Post × Option ℤ :=
  getFollowingFeedCore db followedIds (cursor.bind decode) limit

/-- Outcome of decoding a `following` cursor, modelling
`JSON.parse(Buffer.from(cursor, 'base64').toString())` followed by
`new Date(cursorData.createdAt)`:
`thrown` — the decode threw inside the `try` block, so the `catch` ignores
the cursor; `validDate ts` — the payload carried a timestamp that yields a
valid Date; `invalidDate` — JSON parsed but `createdAt` was absent or
unusable, so `new Date(...)` is an Invalid Date (no exception yet) and the
subsequent query throws. -/
inductive FollowingCursorDecode : Type
  | thrown
  | validDate (ts : ℤ)
  | invalidDate
deriving DecidableEq, Repr

/-- The full `following` request outcome, including the database error
path: only a decode that throws is caught and ignored; an Invalid Date
produced by a successfully parsed payload flows into the query, which
throws and surfaces the error. -/
def getFollowingFeedReq (db : List Post) (followedIds : List ℕ)
    (decode : List Char → FollowingCursorDecode)
    (cursor : Option (List Char)) (limit : ℕ) :
    Except DbError (List Post × Option ℤ) :=
  match cursor with
  | none => Except.ok (getFollowingFeedCore db followedIds none limit)
  | some c =>
      match decode c with
      | FollowingCursorDecode.thrown =>
          Except.ok (getFollowingFeedCore db followedIds none limit)
      | FollowingCursorDecode.validDate ts =>
          Except.ok (getFollowingFeedCore db followedIds (some ts) limit)
      | FollowingCursorDecode.invalidDate => Except.error DbError.invalidDate

/-- Modelled from the spec: the platform decode evaluated at the concrete
cursor `"eyJmb28iOjF9"` — the base64 encoding of `{"foo":1}`.
`Buffer.from`/`JSON.parse` succeed (so nothing is thrown and the `catch`
never fires), `cursorData.createdAt` is `undefined`, and
`new Date(undefined)` is an Invalid Date.  Every other cursor is mapped to
the throwing (ignored) outcome. -/
def decodeNoCreatedAt (c : List Char) : FollowingCursorDecode :=
  if c = "eyJmb28iOjF9".toList then FollowingCursorDecode.invalidDate
  else FollowingCursorDecode.thrown

/-- Lookup in the JavaScript `Map` modelled as an insertion-ordered
association list: `symbolCounts.get(ticker) || 0`. -/
def mapGetD (m : List (String × ℕ)) (k : String) : ℕ :=
  match m with
  | [] => 0
  | (k', v) :: rest => if k' = k then v else mapGetD rest k

/-- `Map.prototype.set`: update the existing entry in place if the key is
present, otherwise append a new entry (preserving insertion order). -/
def mapSet (m : List (String × ℕ)) (k : String) (v : ℕ) :
    List (String × ℕ) :=
  match m with
  | [] => [(k, v)]
  | (k', v') :: rest =>
      if k' = k then (k, v) :: rest else (k', v') :: mapSet rest k v

/-- `symbolCounts.set(ticker, (symbolCounts.get(ticker) || 0) + w)`. -/
def addSymbolWeight (m : List (String × ℕ)) (ticker : String) (w : ℕ) :
    List (String × ℕ) :=
  mapSet m ticker (mapGetD m ticker + w)

/-- One `post.symbols.forEach` pass of `getUserInterestSymbols`, adding
weight `w` per symbol occurrence of one post. -/
def addPostSymbols (w : ℕ) (m : List (String × ℕ)) (tickers : List String) :
    List (String × ℕ) :=
  tickers.foldl (fun acc t => addSymbolWeight acc t w) m

/-- The `symbolCounts` map built by `getUserInterestSymbols`
(`src/api/feed/router.ts` lines 408-472): +3 per symbol occurrence on the
user's own recent posts, then +1 per symbol occurrence on posts the user
reacted to.  Each post is given by the ticker list of its symbols. -/
def interestMap (ownPosts reactedPosts : List (List String)) :
    List (String × ℕ) :=
  reactedPosts.foldl (addPostSymbols 1) (ownPosts.foldl (addPostSymbols 3) [])

/-- `getUserInterestSymbols`: sort the accumulated entries by weight
descending (`.sort((a, b) => b[1] - a[1])`, a stable sort), keep the top 10,
return the tickers. -/
def getUserInterestSymbols (ownPosts reactedPosts : List (List String)) :
    List String :=
  ((sortDescBy Prod.snd (interestMap ownPosts reactedPosts)).take 10).map
    Prod.fst

/-- A row of the `Reaction` table: surrogate `id` plus the
`(postId, userId, type)` columns covered by the `postId_userId_type`
unique constraint. -/
structure ReactionRow : Type where
  id : ℕ
  postId : ℕ
  userId : ℕ
  type : RType
deriving DecidableEq, Repr

/-- `prisma.reaction.findUnique({ where: { postId_userId_type: ... } })`:
the first (under the uniqueness invariant: only) row matching the triple. -/
def findUniqueReaction (s : List ReactionRow) (p u : ℕ) (t : RType) :
    Option ReactionRow :=
  s.find? fun r => r.postId == p && r.userId == u && r.type == t

/-- The reaction toggle of `POST /posts/:id/react`
(`src/api/posts/router.ts` lines 527-574): if a row with the triple exists,
delete it (by its `id`); otherwise insert a fresh row with id `newId`. -/
def react (s : List ReactionRow) (newId : ℕ) (p u : ℕ) (t : RType) :
    List ReactionRow :=
  match findUniqueReaction s p u t with
  | some r => s.filter fun x => x.id ≠ r.id
  | none => s ++ [⟨newId, p, u, t⟩]

/-- The uniqueness invariant of the `Reaction` table: the
`@@unique([postId, userId, type])` constraint (at most one row per triple)
together with primary-key uniqueness. -/
def ReactionInv (s : List ReactionRow) : Prop :=
  s.Pairwise (fun a b =>
    (a.postId, a.userId, a.type) ≠ (b.postId, b.userId, b.type) ∧ a.id ≠ b.id)

/-- Concrete `now` used by the concrete evaluations below
(a realistic millisecond epoch value). -/
def nowMs : ℤ := 1700000000000

/-- A recent, non-hidden reply post (its `replyTo` is set): a concrete
input for the candidate-selection claims. -/
def replyPost : Post := ⟨1, 5, nowMs - 1000, false, some 42, [], []⟩

/-- Concrete post aged 3 hours with ten LIKE reactions (from ten distinct
users) — the high-scoring but oldest post of the pagination dataset. -/
def postA : Post :=
  ⟨1, 10, nowMs - 10800000, false, none,
    (List.range 10).map (fun i => ⟨RType.LIKE, 100 + i⟩), []⟩

/-- Concrete post aged 1 second with no reactions. -/
def postB : Post := ⟨2, 11, nowMs - 1000, false, none, [], []⟩

/-- Concrete post aged 2 seconds with no reactions. -/
def postC : Post := ⟨3, 12, nowMs - 2000, false, none, [], []⟩

/-- The three-post dataset on which `for_you` pagination loses posts. -/
def dbPag : List Post := [postA, postB, postC]

/-- A one-post dataset: the `for_you` fetch returns exactly `limit` rows. -/
def dbOne : List Post := [postB]

/-! ### Helper lemmas about `round4` -/

theorem round4_eq (x : ℝ) (n : ℤ) (h1 : (n : ℝ) ≤ x * 10000 + 1 / 2)
    (h2 : x * 10000 + 1 / 2 < n + 1) : round4 x = (n : ℝ) / 10000 := by
  unfold round4
  rw [Int.floor_eq_iff.mpr ⟨h1, h2⟩]

theorem round4_le (x : ℝ) : round4 x ≤ x + 1 / 20000 := by
  unfold round4
  have h := Int.floor_le (x * 10000 + 1 / 2)
  rw [div_le_iff₀ (by norm_num : (0 : ℝ) < 10000)]
  linarith

theorem round4_gt (x : ℝ) : x - 1 / 20000 < round4 x := by
  unfold round4
  have h := Int.lt_floor_add_one (x * 10000 + 1 / 2)
  rw [lt_div_iff₀ (by norm_num : (0 : ℝ) < 10000)]
  linarith

theorem round4_mono {x y : ℝ} (h : x ≤ y) : round4 x ≤ round4 y := by
  unfold round4
  have hf : ⌊x * 10000 + 1 / 2⌋ ≤ ⌊y * 10000 + 1 / 2⌋ :=
    Int.floor_mono (by linarith)
  have : ((⌊x * 10000 + 1 / 2⌋ : ℤ) : ℝ) ≤ ((⌊y * 10000 + 1 / 2⌋ : ℤ) : ℝ) :=
    Int.cast_le.mpr hf
  linarith

theorem round4_zero : round4 0 = 0 := by
  have h := round4_eq 0 0 (by norm_num) (by norm_num)
  simpa using h

/-! ### Numeric bounds on `Real.log 11` and on final scores -/

theorem log_eleven_eight_bounds :
    (0.31844 : ℝ) ≤ Real.log (11 / 8) ∧ Real.log (11 / 8) ≤ 0.31847 := by
  have hx : |(3 / 11 : ℝ)| < 1 := by rw [abs_of_pos] <;> norm_num
  have h := Real.abs_log_sub_add_sum_range_le hx 8
  have hS : (∑ i ∈ Finset.range 8, (3 / 11 : ℝ) ^ (i + 1) / (i + 1)) =
      19113674073 / 60020486680 := by
    simp [Finset.sum_range_succ]
    norm_num
  have habs : |(3 / 11 : ℝ)| ^ (8 + 1) / (1 - |(3 / 11 : ℝ)|) =
      19683 / 1714871048 := by
    rw [abs_of_pos (by norm_num : (0 : ℝ) < 3 / 11)]
    norm_num
  have h18 : (1 : ℝ) - 3 / 11 = 8 / 11 := by norm_num
  have hinv : Real.log (8 / 11) = -Real.log (11 / 8) := by
    rw [show (8 / 11 : ℝ) = (11 / 8)⁻¹ by norm_num, Real.log_inv]
  rw [hS, habs, h18, hinv] at h
  have h' := abs_le.mp h
  constructor <;> linarith [h'.1, h'.2]

theorem log_eleven_gt : (2.39785 : ℝ) < Real.log 11 := by
  have h8 : Real.log 11 = Real.log (11 / 8) + 3 * Real.log 2 := by
    rw [show (11 : ℝ) = 11 / 8 * 2 ^ 3 by norm_num,
      Real.log_mul (by norm_num) (by norm_num), Real.log_pow]
    push_cast
    ring_nf
  have h1 := log_eleven_eight_bounds.1
  have h2 := Real.log_two_gt_d9
  rw [h8]
  norm_num at h1 h2 ⊢
  linarith

theorem log_eleven_lt : Real.log 11 < (2.39795 : ℝ) := by
  have h8 : Real.log 11 = Real.log (11 / 8) + 3 * Real.log 2 := by
    rw [show (11 : ℝ) = 11 / 8 * 2 ^ 3 by norm_num,
      Real.log_mul (by norm_num) (by norm_num), Real.log_pow]
    push_cast
    ring_nf
  have h1 := log_eleven_eight_bounds.2
  have h2 := Real.log_two_lt_d9
  rw [h8]
  norm_num at h1 h2 ⊢
  linarith

theorem round4_log_eleven : round4 (Real.log 11) = 2.3979 := by
  have h1 := log_eleven_gt
  have h2 := log_eleven_lt
  have h := round4_eq (Real.log 11) 23979
    (by norm_num at h1 ⊢; linarith) (by norm_num at h2 ⊢; linarith)
  rw [h]
  norm_num

theorem round4_scenario_two :
    round4 ((0.4 : ℝ) * 2.3979 + 0.3 * Real.exp (-1) + 0.3 * 1) = 1.3695 := by
  have h1 := Real.exp_neg_one_gt_d9
  have h2 := Real.exp_neg_one_lt_d9
  have h := round4_eq ((0.4 : ℝ) * 2.3979 + 0.3 * Real.exp (-1) + 0.3 * 1) 13695
    (by norm_num at h1 ⊢; linarith) (by norm_num at h2 ⊢; linarith)
  rw [h]
  norm_num

/-! ### Claim theorems C1-C3 -/

/-- C1: the `for_you` total score is the weighted sum
`0.4 * initialReactionScore + 0.3 * timeDecay + 0.3 * symbolMatchBonus`,
rounded to 4 decimal places; a post aged 0 hours with zero reactions, no
symbols and an empty interest profile scores exactly 0.3; and a post aged
6 hours with counts `{LIKE: 10, BOOST: 0, BOOKMARK: 0}`, outside the
recent-reaction window, with post symbols `["TSLA"]` and interest profile
`["TSLA"]` scores 1.3695. -/
theorem C1_totalScore_weighted_sum :
    (∀ (now createdAt : ℤ) (rc : ReactionCounts) (symbols : List SymbolRef)
        (interest : List String),
      calculateForYouScore now createdAt rc symbols interest =
        round4 ((0.4 : ℝ) * calculateInitialReactionScore now createdAt rc +
          0.3 * calculateTimeDecay now createdAt +
          0.3 * calculateSymbolMatchBonus (symbols.map SymbolRef.ticker) interest)) ∧
    (∀ now : ℤ, calculateForYouScore now now ⟨0, 0, 0⟩ [] [] = 0.3) ∧
    (∀ now : ℤ,
      calculateForYouScore now (now - 21600000) ⟨10, 0, 0⟩
        [⟨"TSLA", "TSLA", "stock"⟩] ["TSLA"] = 1.3695) := by
  refine ⟨fun now createdAt rc symbols interest => rfl, fun now => ?_, fun now => ?_⟩
  · have hIRS : calculateInitialReactionScore now now ⟨0, 0, 0⟩ = 0 := by
      unfold calculateInitialReactionScore
      norm_num [RECENT_REACTION_WINDOW, Real.log_one, round4_zero]
    have hTD : calculateTimeDecay now now = 1 := by
      unfold calculateTimeDecay
      norm_num [Real.exp_zero]
    have hSMB : calculateSymbolMatchBonus [] [] = 0 := by
      unfold calculateSymbolMatchBonus
      norm_num
    unfold calculateForYouScore
    rw [show (List.map SymbolRef.ticker [] : List String) = [] from rfl,
      hIRS, hTD, hSMB]
    unfold INITIAL_REACTION_WEIGHT TIME_DECAY_WEIGHT SYMBOL_MATCH_WEIGHT
    have h := round4_eq ((0.4 : ℝ) * 0 + 0.3 * 1 + 0.3 * 0) 3000
      (by norm_num) (by norm_num)
    rw [h]
    norm_num
  · have hIRS : calculateInitialReactionScore now (now - 21600000) ⟨10, 0, 0⟩ =
        2.3979 := by
      unfold calculateInitialReactionScore
      rw [if_neg (show ¬(now - (now - 21600000) ≤ RECENT_REACTION_WINDOW) by
        unfold RECENT_REACTION_WINDOW; omega)]
      norm_num [round4_log_eleven]
    have hTD : calculateTimeDecay now (now - 21600000) = Real.exp (-1) := by
      unfold calculateTimeDecay
      norm_num
    have hSMB : calculateSymbolMatchBonus ["TSLA"] ["TSLA"] = 1 := by
      unfold calculateSymbolMatchBonus
      norm_num [List.filter, List.contains]
    unfold calculateForYouScore
    rw [show List.map SymbolRef.ticker [⟨"TSLA", "TSLA", "stock"⟩] = ["TSLA"]
        from rfl, hIRS, hTD, hSMB]
    unfold INITIAL_REACTION_WEIGHT TIME_DECAY_WEIGHT SYMBOL_MATCH_WEIGHT
    exact round4_scenario_two

/-- C2: the time-decay sub-score is `exp(-ageHours / 6)` with
`ageHours = (now - createdAt) / 3600000 ms`; it is exactly 1 at age 0; and
it is strictly decreasing in age (an older post decays strictly more). -/
theorem C2_timeDecay_formula_monotone :
    (∀ now createdAt : ℤ,
      calculateTimeDecay now createdAt =
        Real.exp (-(((now - createdAt : ℤ) : ℝ) / 3600000) / 6)) ∧
    (∀ t : ℤ, calculateTimeDecay t t = 1) ∧
    (∀ t1 t2 now : ℤ, t1 < t2 → t2 ≤ now →
      calculateTimeDecay now t1 < calculateTimeDecay now t2) := by
  refine ⟨fun now createdAt => by norm_num [calculateTimeDecay],
    fun t => by norm_num [calculateTimeDecay, Real.exp_zero], ?_⟩
  intro t1 t2 now h12 _
  unfold calculateTimeDecay
  apply Real.exp_lt_exp.mpr
  have hc : (t1 : ℝ) < (t2 : ℝ) := Int.cast_lt.mpr h12
  push_cast
  linarith

/-- C2 witness: the strict-monotonicity part applied at the concrete
timestamps `t1 = 0 < t2 = 1 ≤ now = 2`. -/
theorem C2_witness : calculateTimeDecay 2 0 < calculateTimeDecay 2 1 :=
  C2_timeDecay_formula_monotone.2.2 0 1 2 (by norm_num) (by norm_num)

/-- C3: the initial-reaction sub-score is `ln(base + 1) * multiplier`
rounded to 4 decimal places, with `base = LIKE*1 + BOOST*3 + BOOKMARK*2`
and multiplier 1.5 when the age is at most 2 hours (7200000 ms), else 1.0;
the 2-hour boundary itself receives the 1.5 multiplier (inclusive). -/
theorem C3_initialReactionScore_formula :
    (∀ (now createdAt : ℤ) (rc : ReactionCounts),
      calculateInitialReactionScore now createdAt rc =
        round4 (Real.log
            (((rc.LIKE * 1 + rc.BOOST * 3 + rc.BOOKMARK * 2 : ℕ) : ℝ) + 1) *
          (if now - createdAt ≤ 7200000 then 1.5 else 1.0))) ∧
    (∀ (createdAt : ℤ) (rc : ReactionCounts),
      calculateInitialReactionScore (createdAt + 7200000) createdAt rc =
        round4 (Real.log
            (((rc.LIKE * 1 + rc.BOOST * 3 + rc.BOOKMARK * 2 : ℕ) : ℝ) + 1) *
          1.5)) := by
  constructor
  · intro now createdAt rc
    unfold calculateInitialReactionScore RECENT_REACTION_WINDOW
    norm_num
  · intro createdAt rc
    unfold calculateInitialReactionScore RECENT_REACTION_WINDOW
    rw [if_pos (show createdAt + 7200000 - createdAt ≤ 2 * 60 * 60 * 1000 by
      omega)]

/-! ### Lemmas about the stable descending sort -/

theorem insertDescBy_perm {α β : Type} [LinearOrder β] (f : α → β) (x : α)
    (l : List α) : (insertDescBy f x l).Perm (x :: l) := by
  induction l with
  | nil => exact List.Perm.refl _
  | cons y ys ih =>
      unfold insertDescBy
      by_cases h : f y < f x
      · rw [if_pos h]
      · rw [if_neg h]
        exact (List.Perm.cons y ih).trans (List.Perm.swap x y ys)

theorem sortDescBy_foldl_perm {α β : Type} [LinearOrder β] (f : α → β) :
    ∀ (l acc : List α),
      (l.foldl (fun acc x => insertDescBy f x acc) acc).Perm (acc ++ l) := by
  intro l
  induction l with
  | nil => intro acc; simp
  | cons x xs ih =>
      intro acc
      have h1 := ih (insertDescBy f x acc)
      have h2 : (insertDescBy f x acc ++ xs).Perm (acc ++ x :: xs) := by
        refine ((insertDescBy_perm f x acc).append_right xs).trans ?_
        exact List.perm_middle.symm
      exact h1.trans h2

theorem sortDescBy_perm {α β : Type} [LinearOrder β] (f : α → β)
    (l : List α) : (sortDescBy f l).Perm l := by
  have h := sortDescBy_foldl_perm f l []
  simpa [sortDescBy] using h

theorem mem_sortDescBy {α β : Type} [LinearOrder β] (f : α → β)
    (l : List α) (a : α) : a ∈ sortDescBy f l ↔ a ∈ l :=
  (sortDescBy_perm f l).mem_iff

theorem length_sortDescBy {α β : Type} [LinearOrder β] (f : α → β)
    (l : List α) : (sortDescBy f l).length = l.length :=
  (sortDescBy_perm f l).length_eq

theorem insertDescBy_sorted {α β : Type} [LinearOrder β] (f : α → β) (x : α)
    {l : List α} (h : l.Pairwise (fun a b => f b ≤ f a)) :
    (insertDescBy f x l).Pairwise (fun a b => f b ≤ f a) := by
  induction l with
  | nil => simp [insertDescBy]
  | cons y ys ih =>
      rw [List.pairwise_cons] at h
      unfold insertDescBy
      by_cases hc : f y < f x
      · rw [if_pos hc, List.pairwise_cons]
        refine ⟨?_, List.pairwise_cons.mpr h⟩
        intro z hz
        rcases List.mem_cons.mp hz with hz | hz
        · subst hz; exact le_of_lt hc
        · exact (h.1 z hz).trans (le_of_lt hc)
      · rw [if_neg hc, List.pairwise_cons]
        refine ⟨?_, ih h.2⟩
        intro z hz
        rcases List.mem_cons.mp ((insertDescBy_perm f x ys).mem_iff.mp hz) with
          hz | hz
        · subst hz; exact le_of_not_lt hc
        · exact h.1 z hz

theorem sortDescBy_foldl_sorted {α β : Type} [LinearOrder β] (f : α → β) :
    ∀ (l acc : List α), acc.Pairwise (fun a b => f b ≤ f a) →
      (l.foldl (fun acc x => insertDescBy f x acc) acc).Pairwise
        (fun a b => f b ≤ f a) := by
  intro l
  induction l with
  | nil => intro acc h; simpa using h
  | cons x xs ih =>
      intro acc h
      exact ih (insertDescBy f x acc) (insertDescBy_sorted f x h)

theorem sortDescBy_sorted {α β : Type} [LinearOrder β] (f : α → β)
    (l : List α) :
    (sortDescBy f l).Pairwise (fun a b => f b ≤ f a) :=
  sortDescBy_foldl_sorted f l [] List.Pairwise.nil

/-! ### Lemmas about the interest-symbol accumulation -/

theorem mapGetD_mapSet_self (m : List (String × ℕ)) (k : String) (v : ℕ) :
    mapGetD (mapSet m k v) k = v := by
  induction m with
  | nil => simp [mapSet, mapGetD]
  | cons e rest ih =>
      unfold mapSet
      by_cases h : e.1 = k
      · rw [if_pos h]
        simp [mapGetD]
      · rw [if_neg h]
        unfold mapGetD
        rw [if_neg h]
        exact ih

theorem mapGetD_mapSet_ne (m : List (String × ℕ)) (k t : String) (v : ℕ)
    (h : k ≠ t) : mapGetD (mapSet m k v) t = mapGetD m t := by
  induction m with
  | nil => simp [mapSet, mapGetD, h]
  | cons e rest ih =>
      unfold mapSet
      by_cases he : e.1 = k
      · rw [if_pos he]
        unfold mapGetD
        rw [if_neg h, if_neg (he ▸ h)]
      · rw [if_neg he]
        unfold mapGetD
        by_cases ht : e.1 = t
        · rw [if_pos ht, if_pos ht]
        · rw [if_neg ht, if_neg ht]
          exact ih

theorem mapGetD_addSymbolWeight_self (m : List (String × ℕ)) (k : String)
    (w : ℕ) : mapGetD (addSymbolWeight m k w) k = mapGetD m k + w :=
  mapGetD_mapSet_self m k _

theorem mapGetD_addSymbolWeight_ne (m : List (String × ℕ)) (k t : String)
    (w : ℕ) (h : k ≠ t) :
    mapGetD (addSymbolWeight m k w) t = mapGetD m t :=
  mapGetD_mapSet_ne m k t _ h

theorem mapGetD_addPostSymbols (w : ℕ) (t : String) :
    ∀ (tickers : List String) (m : List (String × ℕ)),
      mapGetD (addPostSymbols w m tickers) t =
        mapGetD m t + w * tickers.count t := by
  intro tickers
  induction tickers with
  | nil => intro m; simp [addPostSymbols]
  | cons s ss ih =>
      intro m
      show mapGetD (addPostSymbols w (addSymbolWeight m s w) ss) t = _
      rw [ih]
      by_cases h : s = t
      · subst h
        rw [mapGetD_addSymbolWeight_self]
        rw [List.count_cons_self]
        ring
      · rw [mapGetD_addSymbolWeight_ne m s t w h]
        rw [List.count_cons_of_ne (fun he => h he.symm)]

theorem mapGetD_foldl_addPostSymbols (w : ℕ) (t : String) :
    ∀ (posts : List (List String)) (m : List (String × ℕ)),
      mapGetD (posts.foldl (addPostSymbols w) m) t =
        mapGetD m t + w * posts.flatten.count t := by
  intro posts
  induction posts with
  | nil => intro m; simp
  | cons p ps ih =>
      intro m
      show mapGetD (ps.foldl (addPostSymbols w) (addPostSymbols w m p)) t = _
      rw [ih, mapGetD_addPostSymbols]
      simp [List.count_append]
      ring

theorem interestMap_weight (ownPosts reactedPosts : List (List String))
    (t : String) :
    mapGetD (interestMap ownPosts reactedPosts) t =
      3 * ownPosts.flatten.count t + 1 * reactedPosts.flatten.count t := by
  unfold interestMap
  rw [mapGetD_foldl_addPostSymbols, mapGetD_foldl_addPostSymbols]
  simp [mapGetD]

/-! ### Claim theorems C4-C5 -/

/-- C4: the interest-symbol extraction weights each ticker with 3 per
occurrence on the user's own posts plus 1 per occurrence on reacted-to
posts, sorts entries by weight descending, returns at most the top 10
tickers; no activity yields the empty list, and an empty interest profile
makes the symbol-match sub-score exactly 0. -/
theorem C4_interest_symbols :
    (∀ (ownPosts reactedPosts : List (List String)) (t : String),
      mapGetD (interestMap ownPosts reactedPosts) t =
        3 * ownPosts.flatten.count t + 1 * reactedPosts.flatten.count t) ∧
    (∀ ownPosts reactedPosts : List (List String),
      (sortDescBy Prod.snd (interestMap ownPosts reactedPosts)).Pairwise
        (fun a b => b.2 ≤ a.2)) ∧
    (∀ ownPosts reactedPosts : List (List String),
      getUserInterestSymbols ownPosts reactedPosts =
        ((sortDescBy Prod.snd (interestMap ownPosts reactedPosts)).take
            10).map Prod.fst) ∧
    (∀ ownPosts reactedPosts : List (List String),
      (getUserInterestSymbols ownPosts reactedPosts).length ≤ 10) ∧
    getUserInterestSymbols [] [] = [] ∧
    (∀ postSymbols : List String,
      calculateSymbolMatchBonus postSymbols [] = 0) := by
  refine ⟨interestMap_weight, ?_, fun o r => rfl, ?_, rfl, ?_⟩
  · intro ownPosts reactedPosts
    exact sortDescBy_sorted Prod.snd _
  · intro ownPosts reactedPosts
    unfold getUserInterestSymbols
    rw [List.length_map, List.length_take]
    exact min_le_left _ _
  · intro postSymbols
    unfold calculateSymbolMatchBonus
    norm_num

/-! ### Claim C5: for_you candidate selection -/

/-- C5 counterexample: a recent, non-hidden post that *is* a reply
(`replyTo = some 42`) appears in the `for_you` candidate set — the query of
`getForYouFeed` has no `replyTo` condition, so replies are not excluded. -/
theorem C5_counterexample :
    forYouCandidates [replyPost] nowMs none 1 = [replyPost] ∧
    replyPost.replyTo = some 42 ∧ replyPost.isHidden = false := by
  refine ⟨by decide, rfl, rfl⟩

/-- C5 amended: every `for_you` candidate is within the 24-hour window and
not hidden (but replies are **not** excluded); candidates are ordered by
creation time descending; and the fetch size is `min(3*limit, 100)`,
capped by the number of eligible rows. -/
theorem C5_amended_candidates :
    (∀ (db : List Post) (now : ℤ) (cursorTs : Option ℤ) (limit : ℕ)
        (p : Post), p ∈ forYouCandidates db now cursorTs limit →
      now - MAX_POST_AGE ≤ p.createdAt ∧ p.isHidden = false) ∧
    (∀ (db : List Post) (now : ℤ) (cursorTs : Option ℤ) (limit : ℕ),
      (forYouCandidates db now cursorTs limit).Pairwise
        (fun a b => b.createdAt ≤ a.createdAt)) ∧
    (∀ (db : List Post) (now : ℤ) (cursorTs : Option ℤ) (limit : ℕ),
      (forYouCandidates db now cursorTs limit).length =
        min (min (limit * 3) 100) (forYouEligible db now cursorTs).length) := by
  refine ⟨?_, ?_, ?_⟩
  · intro db now cursorTs limit p hp
    unfold forYouCandidates at hp
    have h1 : p ∈ sortDescBy Post.createdAt (forYouEligible db now cursorTs) :=
      List.take_subset _ _ hp
    have h2 : p ∈ forYouEligible db now cursorTs :=
      (mem_sortDescBy _ _ _).mp h1
    have h3 := (List.mem_filter.mp h2).2
    simp only [Bool.and_eq_true, decide_eq_true_eq, Bool.not_eq_true'] at h3
    exact ⟨h3.1.1, h3.1.2⟩
  · intro db now cursorTs limit
    exact List.Pairwise.sublist (List.take_sublist _ _) (sortDescBy_sorted _ _)
  · intro db now cursorTs limit
    unfold forYouCandidates
    rw [List.length_take, length_sortDescBy]

/-- C5 amended, witness: the window/hidden conditions instantiated on the
concrete reply post which is a member of the concrete candidate list. -/
theorem C5_amended_witness :
    nowMs - MAX_POST_AGE ≤ replyPost.createdAt ∧ replyPost.isHidden = false :=
  C5_amended_candidates.1 [replyPost] nowMs none 1 replyPost (by decide)

/-! ### Claim C7: hasMore semantics -/

/-- C7 counterexample: a `for_you` request over a dataset with exactly one
eligible post and `limit = 1`.  The fetch returns exactly `limit` rows (not
strictly more), yet the feed still emits a next cursor — so the response's
`hasMore` (`nextCursor !== null`) is true although the claimed
"fetch returned strictly more than limit" conjunct is false. -/
theorem C7_counterexample :
    (forYouCandidates dbOne nowMs none 1).length = 1 ∧
    ¬(1 < (forYouCandidates dbOne nowMs none 1).length) ∧
    (getForYouFeedCore dbOne nowMs [] none 1).2 ≠ none := by
  refine ⟨by decide, by decide, ?_⟩
  unfold getForYouFeedCore
  rw [show forYouCandidates dbOne nowMs none 1 = [postB] from by decide]
  simp [sortDescBy, insertDescBy]

/-- C7 amended: `hasMore` (equivalently, `nextCursor ≠ null`) is true iff —
following mode — the overfetch-by-one returned strictly more than `limit`
rows; and iff — for_you mode — the scored-and-truncated result size equals
`limit` (the for_you fetch count itself is not compared against `limit`). -/
theorem C7_amended_hasMore :
    (∀ (db : List Post) (followedIds : List ℕ) (cursorTs : Option ℤ)
        (limit : ℕ), 1 ≤ limit →
      ((getFollowingFeedCore db followedIds cursorTs limit).2 ≠ none ↔
        limit < (followingFetch db followedIds cursorTs limit).length)) ∧
    (∀ (db : List Post) (now : ℤ) (interest : List String)
        (cursorTs : Option ℤ) (limit : ℕ), 1 ≤ limit →
      ((getForYouFeedCore db now interest cursorTs limit).2 ≠ none ↔
        (getForYouFeedCore db now interest cursorTs limit).1.length =
          limit)) := by
  constructor
  · intro db followedIds cursorTs limit hlim
    unfold getFollowingFeedCore
    by_cases h : limit < (followingFetch db followedIds cursorTs limit).length
    · simp only [h, decide_eq_true_eq, if_pos]
      have hlen : (followingFetch db followedIds cursorTs limit).dropLast.length =
          (followingFetch db followedIds cursorTs limit).length - 1 :=
        List.length_dropLast _
      have hne : (followingFetch db followedIds cursorTs limit).dropLast ≠ [] := by
        intro hnil
        rw [hnil] at hlen
        simp at hlen
        omega
      have hsome : (followingFetch db followedIds cursorTs limit).dropLast.getLast?.isSome =
          true := List.getLast?_isSome.mpr hne
      rcases Option.isSome_iff_exists.mp hsome with ⟨lp, hlp⟩
      simp [h, hlp]
    · simp [h]
  · intro db now interest cursorTs limit hlim
    unfold getForYouFeedCore
    simp only []
    rcases hlast : (sortDescBy Prod.snd
        ((forYouCandidates db now cursorTs limit).map fun p =>
          (p, calculateForYouScore now p.createdAt (countReactions p.reactions)
            (p.symbols.map fun t => ⟨t, t, ""⟩) interest))).take limit |>.getLast? with
      _ | lp
    · have hnil := List.getLast?_eq_none_iff.mp hlast
      rw [hlast, hnil]
      simp
      omega
    · rw [hlast]
      by_cases hlen : ((sortDescBy Prod.snd
          ((forYouCandidates db now cursorTs limit).map fun p =>
            (p, calculateForYouScore now p.createdAt (countReactions p.reactions)
              (p.symbols.map fun t => ⟨t, t, ""⟩) interest))).take limit).length =
          limit
      · simp [hlen]
      · simp [hlen]

/-- C7 amended, witness: both directions instantiated at `limit = 1` on
concrete datasets (empty following feed; one-post for_you feed). -/
theorem C7_amended_witness :
    ((getFollowingFeedCore [] [] none 1).2 ≠ none ↔
      1 < (followingFetch [] [] none 1).length) ∧
    ((getForYouFeedCore dbOne nowMs [] none 1).2 ≠ none ↔
      (getForYouFeedCore dbOne nowMs [] none 1).1.length = 1) :=
  ⟨C7_amended_hasMore.1 [] [] none 1 (by norm_num),
    C7_amended_hasMore.2 dbOne nowMs [] none 1 (by norm_num)⟩

/-! ### Claim C8: malformed cursors -/

theorem forYouCursorTimestamp_eq_constraint (c : List Char) :
    forYouCursorTimestamp c =
      match forYouCursorConstraint c with
      | CursorConstraint.ltTimestamp ts => some ts
      | _ => none := by
  rcases hs : jsSplit '_' c with _ | ⟨a, tl⟩
  · simp [forYouCursorTimestamp, forYouCursorConstraint, hs]
  · rcases tl with _ | ⟨b, rest⟩
    · simp [forYouCursorTimestamp, forYouCursorConstraint, hs]
    · by_cases hg : a ≠ [] ∧ b ≠ []
      · rcases hp : parseIntJS b with _ | ts <;>
          simp [forYouCursorTimestamp, forYouCursorConstraint, hs, hg, hp]
      · simp [forYouCursorTimestamp, forYouCursorConstraint, hs, hg]

/-- C8: the malformed cursor `"a_b"` passes the `for_you` split/truthiness
guard, its timestamp component parses to `NaN`, the Invalid-Date filter
reaches the query, and the request errors instead of behaving like the
cursorless request; likewise a `following` cursor whose base64/JSON decode
succeeds without a valid `createdAt` (here `"eyJmb28iOjF9"`, the base64 of
a payload with no `createdAt`) errors rather than serving the newest
page. -/
theorem C8_malformed_cursor_error :
    (∀ (db : List Post) (now : ℤ) (interest : List String) (limit : ℕ),
      getForYouFeedReq db now interest (some ['a', '_', 'b']) limit =
        Except.error DbError.invalidDate) ∧
    (∀ (db : List Post) (now : ℤ) (interest : List String) (limit : ℕ),
      getForYouFeedReq db now interest (some ['a', '_', 'b']) limit ≠
        getForYouFeedReq db now interest none limit) ∧
    (∀ (db : List Post) (followedIds : List ℕ) (limit : ℕ),
      getFollowingFeedReq db followedIds decodeNoCreatedAt
          (some ("eyJmb28iOjF9".toList)) limit =
        Except.error DbError.invalidDate) := by
  have hcon : forYouCursorConstraint ['a', '_', 'b'] =
      CursorConstraint.invalidDate := by decide
  refine ⟨?_, ?_, ?_⟩
  · intro db now interest limit
    simp only [getForYouFeedReq, hcon]
  · intro db now interest limit
    simp only [getForYouFeedReq, hcon]
    intro h
    exact Except.noConfusion h
  · intro db followedIds limit
    simp only [getFollowingFeedReq,
      show decodeNoCreatedAt ("eyJmb28iOjF9".toList) =
        FollowingCursorDecode.invalidDate from by decide]

/-! ### Claim C9: reaction toggle -/

/-- C9: the toggle endpoint keeps at most one reaction row per
`(post, user, type)` triple (the `postId_userId_type` uniqueness invariant
is preserved), and reacting twice in succession with the same triple —
starting from a state with no such reaction — first adds the row and then
removes exactly it, returning the table to precisely its original state. -/
theorem C9_reaction_toggle :
    (∀ (s : List ReactionRow) (newId p u : ℕ) (t : RType),
      ReactionInv s → (∀ r ∈ s, r.id ≠ newId) →
      ReactionInv (react s newId p u t)) ∧
    (∀ (s : List ReactionRow) (newId newId' p u : ℕ) (t : RType),
      (∀ r ∈ s, r.id ≠ newId) →
      findUniqueReaction s p u t = none →
      react (react s newId p u t) newId' p u t = s) := by
  constructor
  · intro s newId p u t hinv hfresh
    unfold react
    rcases hfind : findUniqueReaction s p u t with _ | r
    · unfold ReactionInv
      rw [List.pairwise_append]
      refine ⟨hinv, List.pairwise_singleton _ _, ?_⟩
      intro a ha b hb
      rw [List.mem_singleton] at hb
      subst hb
      have hnot := List.find?_eq_none.mp hfind a ha
      simp only [Bool.and_eq_true, beq_iff_eq, not_and] at hnot
      constructor
      · intro htriple
        have h' : a.postId = p ∧ a.userId = u ∧ a.type = t := by
          simpa using htriple
        exact hnot ⟨h'.1, h'.2.1⟩ h'.2.2
      · exact hfresh a ha
    · exact List.Pairwise.sublist (List.filter_sublist s) hinv
  · intro s newId newId' p u t hfresh hfind
    unfold react
    rw [hfind]
    have hfind2 : findUniqueReaction (s ++ [⟨newId, p, u, t⟩]) p u t =
        some ⟨newId, p, u, t⟩ := by
      unfold findUniqueReaction at hfind ⊢
      rw [List.find?_append, hfind]
      simp
    rw [hfind2]
    show List.filter (fun x => decide (x.id ≠ newId)) (s ++ [⟨newId, p, u, t⟩]) =
      s
    rw [List.filter_append]
    have h1 : s.filter (fun x => decide (x.id ≠ newId)) = s := by
      rw [List.filter_eq_self]
      intro a ha
      simpa using hfresh a ha
    have h2 : ([(⟨newId, p, u, t⟩ : ReactionRow)].filter
        (fun x => decide (x.id ≠ newId))) = [] := by
      simp
    rw [h1, h2, List.append_nil]

/-- C9 witness: the invariant-preservation part on a one-row table and the
toggle-pair part on the empty table, at concrete arguments. -/
theorem C9_witness :
    ReactionInv (react [⟨1, 9, 9, RType.BOOST⟩] 5 1 2 RType.LIKE) ∧
    react (react [] 5 1 2 RType.LIKE) 6 1 2 RType.LIKE = [] :=
  ⟨C9_reaction_toggle.1 [⟨1, 9, 9, RType.BOOST⟩] 5 1 2 RType.LIKE
      (by unfold ReactionInv; simp) (by decide),
    C9_reaction_toggle.2 [] 5 6 1 2 RType.LIKE (by simp) rfl⟩

/-! ### Claim C10: the cursor's score component never constrains the query -/

theorem jsSplit_ne_nil (sep : Char) (l : List Char) : jsSplit sep l ≠ [] := by
  induction l with
  | nil => simp [jsSplit]
  | cons c cs ih =>
      unfold jsSplit
      by_cases h : c = sep
      · rw [if_pos h]; simp
      · rw [if_neg h]
        rcases hs : jsSplit sep cs with _ | ⟨hd, tl⟩
        · exact absurd hs ih
        · simp

theorem jsSplit_append (sep : Char) (a b : List Char) (ha : sep ∉ a) :
    jsSplit sep (a ++ sep :: b) = a :: jsSplit sep b := by
  induction a with
  | nil => simp [jsSplit]
  | cons c cs ih =>
      have hc : ¬c = sep := fun h => ha (h ▸ List.mem_cons_self c cs)
      have hcs : sep ∉ cs := fun h => ha (List.mem_cons_of_mem c h)
      show jsSplit sep (c :: (cs ++ sep :: b)) = _
      rw [show jsSplit sep (c :: (cs ++ sep :: b)) =
          (if c = sep then [] :: jsSplit sep (cs ++ sep :: b)
            else
              match jsSplit sep (cs ++ sep :: b) with
              | [] => [[c]]
              | h :: t => (c :: h) :: t) from rfl]
      rw [if_neg hc, ih hcs]

/-- C10: two algorithmic cursors that share the timestamp component but
differ in the (nonempty, underscore-free) score component produce identical
`for_you` results on every dataset: the score component is parsed off the
string but never constrains the candidate query, which filters only on the
cursor's creation-timestamp component. -/
theorem C10_cursor_score_ignored
    (db : List Post) (now : ℤ) (interest : List String) (limit : ℕ)
    (score1 score2 ts : List Char)
    (h1 : '_' ∉ score1) (h2 : '_' ∉ score2)
    (h3 : score1 ≠ []) (h4 : score2 ≠ []) :
    getForYouFeedStr db now interest (some (score1 ++ '_' :: ts)) limit =
      getForYouFeedStr db now interest (some (score2 ++ '_' :: ts)) limit := by
  have key : forYouCursorTimestamp (score1 ++ '_' :: ts) =
      forYouCursorTimestamp (score2 ++ '_' :: ts) := by
    unfold forYouCursorTimestamp
    rw [jsSplit_append '_' score1 ts h1, jsSplit_append '_' score2 ts h2]
    rcases hs : jsSplit '_' ts with _ | ⟨t1, rest⟩
    · exact absurd hs (jsSplit_ne_nil '_' ts)
    · simp [h3, h4]
  unfold getForYouFeedStr
  rw [show (some (score1 ++ '_' :: ts)).bind forYouCursorTimestamp =
      forYouCursorTimestamp (score1 ++ '_' :: ts) from rfl,
    show (some (score2 ++ '_' :: ts)).bind forYouCursorTimestamp =
      forYouCursorTimestamp (score2 ++ '_' :: ts) from rfl, key]

/-- C10 witness: the concrete cursors `"1.5_1700000000000"` and
`"9.9_1700000000000"` yield identical feeds. -/
theorem C10_witness :
    getForYouFeedStr dbOne nowMs []
        (some (['1', '.', '5'] ++ '_' ::
          ['1', '7', '0', '0', '0', '0', '0', '0', '0', '0', '0', '0', '0']))
        1 =
      getForYouFeedStr dbOne nowMs []
        (some (['9', '.', '9'] ++ '_' ::
          ['1', '7', '0', '0', '0', '0', '0', '0', '0', '0', '0', '0', '0']))
        1 :=
  C10_cursor_score_ignored dbOne nowMs [] 1 ['1', '.', '5'] ['9', '.', '9']
    ['1', '7', '0', '0', '0', '0', '0', '0', '0', '0', '0', '0', '0']
    (by decide) (by decide) (by decide) (by decide)

/-! ### Claim C6: pagination of the algorithmic feed -/

theorem score_zero_counts (now t : ℤ) :
    calculateForYouScore now t ⟨0, 0, 0⟩ [] [] =
      round4 ((0.3 : ℝ) * calculateTimeDecay now t) := by
  unfold calculateForYouScore calculateInitialReactionScore
    calculateSymbolMatchBonus
  norm_num [Real.log_one, round4_zero, INITIAL_REACTION_WEIGHT,
    TIME_DECAY_WEIGHT, SYMBOL_MATCH_WEIGHT]

theorem score_ten_likes_old (now t : ℤ)
    (h : ¬(now - t ≤ RECENT_REACTION_WINDOW)) :
    calculateForYouScore now t ⟨10, 0, 0⟩ [] [] =
      round4 ((0.4 : ℝ) * 2.3979 + 0.3 * calculateTimeDecay now t) := by
  unfold calculateForYouScore calculateInitialReactionScore
    calculateSymbolMatchBonus
  rw [if_neg h]
  norm_num [round4_log_eleven, INITIAL_REACTION_WEIGHT, TIME_DECAY_WEIGHT,
    SYMBOL_MATCH_WEIGHT]

theorem decay_mono_le (now : ℤ) {t1 t2 : ℤ} (h : t1 ≤ t2) :
    calculateTimeDecay now t1 ≤ calculateTimeDecay now t2 := by
  unfold calculateTimeDecay
  apply Real.exp_le_exp.mpr
  have hc : (t1 : ℝ) ≤ (t2 : ℝ) := Int.cast_le.mpr h
  push_cast
  linarith

theorem decay_le_one (now t : ℤ) (h : t ≤ now) :
    calculateTimeDecay now t ≤ 1 := by
  unfold calculateTimeDecay
  rw [show (1 : ℝ) = Real.exp 0 from Real.exp_zero.symm]
  apply Real.exp_le_exp.mpr
  have hc : (t : ℝ) ≤ (now : ℝ) := Int.cast_le.mpr h
  push_cast
  have : (0 : ℝ) ≤ ((now : ℝ) - t) / (60 * 60 * 1000) :=
    div_nonneg (by linarith) (by norm_num)
  linarith

theorem decay_pos (now t : ℤ) : 0 < calculateTimeDecay now t :=
  Real.exp_pos _

theorem sortDescBy_three {α β : Type} [LinearOrder β] (f : α → β) (b c a : α)
    (hcb : f c ≤ f b) (hba : f b < f a) :
    sortDescBy f [b, c, a] = [a, b, c] := by
  show insertDescBy f a (insertDescBy f c (insertDescBy f b [])) = [a, b, c]
  rw [show insertDescBy f b [] = [b] from rfl]
  have h2 : insertDescBy f c [b] = [b, c] := by
    show (if f b < f c then c :: b :: [] else b :: insertDescBy f c []) =
      [b, c]
    rw [if_neg (not_lt.mpr hcb)]
    rfl
  rw [h2]
  show (if f b < f a then a :: b :: c :: [] else b :: insertDescBy f a [c]) =
    [a, b, c]
  rw [if_pos hba]

/-- C6: on a concrete static dataset the `for_you` pagination loop fails to
enumerate every eligible post.  All three posts are eligible candidates of
the first request (`[2, 3, 1]` in fetch order), the first page returns only
the high-scoring oldest post (id 1) with a cursor carrying its timestamp,
and the second request — filtering only `createdAt < cursor timestamp` —
finds nothing and stops (`nextCursor = null`), so posts 2 and 3 are never
enumerated: the code's own comment promises to "skip posts with higher
scores, or same score but newer timestamp", but only the timestamp filter
is implemented. -/
theorem C6_pagination_gap :
    (getForYouFeedCore dbPag nowMs [] none 1).1.map (fun q => q.1.id) =
      [1] ∧
    (getForYouFeedCore dbPag nowMs [] none 1).2.map (fun c => c.2) =
      some (nowMs - 10800000) ∧
    (forYouCandidates dbPag nowMs none 1).map Post.id = [2, 3, 1] ∧
    (getForYouFeedCore dbPag nowMs [] (some (nowMs - 10800000)) 1).1 = [] ∧
    (getForYouFeedCore dbPag nowMs [] (some (nowMs - 10800000)) 1).2 =
      none := by
  have hcand : forYouCandidates dbPag nowMs none 1 = [postB, postC, postA] :=
    by decide
  have hredB : calculateForYouScore nowMs postB.createdAt
      (countReactions postB.reactions)
      (List.map (fun t => SymbolRef.mk t t "") postB.symbols) [] =
      round4 ((0.3 : ℝ) * calculateTimeDecay nowMs postB.createdAt) := by
    rw [show countReactions postB.reactions = ⟨0, 0, 0⟩ from rfl,
      show List.map (fun t => SymbolRef.mk t t "") postB.symbols = [] from
        rfl]
    exact score_zero_counts nowMs postB.createdAt
  have hredC : calculateForYouScore nowMs postC.createdAt
      (countReactions postC.reactions)
      (List.map (fun t => SymbolRef.mk t t "") postC.symbols) [] =
      round4 ((0.3 : ℝ) * calculateTimeDecay nowMs postC.createdAt) := by
    rw [show countReactions postC.reactions = ⟨0, 0, 0⟩ from rfl,
      show List.map (fun t => SymbolRef.mk t t "") postC.symbols = [] from
        rfl]
    exact score_zero_counts nowMs postC.createdAt
  have hredA : calculateForYouScore nowMs postA.createdAt
      (countReactions postA.reactions)
      (List.map (fun t => SymbolRef.mk t t "") postA.symbols) [] =
      round4 ((0.4 : ℝ) * 2.3979 +
        0.3 * calculateTimeDecay nowMs postA.createdAt) := by
    rw [show countReactions postA.reactions = ⟨10, 0, 0⟩ from by decide,
      show List.map (fun t => SymbolRef.mk t t "") postA.symbols = [] from
        rfl]
    exact score_ten_likes_old nowMs postA.createdAt (by decide)
  have hCB : round4 ((0.3 : ℝ) * calculateTimeDecay nowMs postC.createdAt) ≤
      round4 ((0.3 : ℝ) * calculateTimeDecay nowMs postB.createdAt) := by
    apply round4_mono
    have := decay_mono_le nowMs
      (show postC.createdAt ≤ postB.createdAt from by decide)
    linarith
  have hBA : round4 ((0.3 : ℝ) * calculateTimeDecay nowMs postB.createdAt) <
      round4 ((0.4 : ℝ) * 2.3979 +
        0.3 * calculateTimeDecay nowMs postA.createdAt) := by
    have h1 := round4_le ((0.3 : ℝ) * calculateTimeDecay nowMs postB.createdAt)
    have h2 := round4_gt ((0.4 : ℝ) * 2.3979 +
      0.3 * calculateTimeDecay nowMs postA.createdAt)
    have h3 := decay_le_one nowMs postB.createdAt (by decide)
    have h4 := decay_pos nowMs postA.createdAt
    have h5 := decay_pos nowMs postB.createdAt
    nlinarith
  have hpage1 : getForYouFeedCore dbPag nowMs [] none 1 =
      ([(postA,
          round4 ((0.4 : ℝ) * 2.3979 +
            0.3 * calculateTimeDecay nowMs postA.createdAt))],
        some
          (round4 ((0.4 : ℝ) * 2.3979 +
              0.3 * calculateTimeDecay nowMs postA.createdAt),
            postA.createdAt)) := by
    unfold getForYouFeedCore
    rw [hcand]
    simp only [List.map_cons, List.map_nil]
    simp only [hredB, hredC, hredA]
    have hsort : sortDescBy Prod.snd
        [(postB, round4 ((0.3 : ℝ) * calculateTimeDecay nowMs postB.createdAt)),
          (postC, round4 ((0.3 : ℝ) * calculateTimeDecay nowMs postC.createdAt)),
          (postA, round4 ((0.4 : ℝ) * 2.3979 +
            0.3 * calculateTimeDecay nowMs postA.createdAt))] =
        [(postA, round4 ((0.4 : ℝ) * 2.3979 +
            0.3 * calculateTimeDecay nowMs postA.createdAt)),
          (postB, round4 ((0.3 : ℝ) * calculateTimeDecay nowMs postB.createdAt)),
          (postC, round4 ((0.3 : ℝ) * calculateTimeDecay nowMs postC.createdAt))] :=
      sortDescBy_three Prod.snd _ _ _ hCB hBA
    simp only [hsort]
    simp
  have hcand2 : forYouCandidates dbPag nowMs (some (nowMs - 10800000)) 1 =
      [] := by decide
  have hpage2 : getForYouFeedCore dbPag nowMs []
      (some (nowMs - 10800000)) 1 = ([], none) := by
    unfold getForYouFeedCore
    rw [hcand2]
    simp [sortDescBy]
  refine ⟨?_, ?_, by decide, ?_, ?_⟩
  · rw [hpage1]
    rfl
  · rw [hpage1]
    rfl
  · rw [hpage2]
  · rw [hpage2]

end Acorn
